import Mathlib

/-!
Shallow embedding of the trading decision engine of the Ai-trading-bot
repository (src/trader.py, src/fxopen_handler.py, src/ai_analyzer.py).

Python floats are modelled as exact rationals (ℚ); Python exceptions are
modelled explicitly (Except / Option, or by embedding the handler of the
enclosing try/except); Python dicts whose keys are fixed strings are
modelled as structures or association lists.
-/

namespace TradingBot

attribute [local semireducible] Rat.add Rat.mul Rat.sub Rat.inv

/-! ### Python helpers -/

/-- Arithmetic mean, np.mean over a list of floats (np.mean of an empty
list is NaN in Python; in ℚ the 0/0 convention gives 0 — all uses below
are guarded by length checks, as in the source). -/
def npMean (l : List ℚ) : ℚ := l.sum / l.length

/-- Python slice l[-n:] for a Python int n ≥ 0: the last n elements, except
that l[-0:] is the whole list (Python treats -0 as 0). -/
def pyLastN (n : ℕ) (l : List α) : List α :=
  if n = 0 then l else l.drop (l.length - n)

/-- Python built-in round to an integer: round half to even. -/
def pyRound (q : ℚ) : ℤ :=
  let f := ⌊q⌋
  let r := q - f
  if r < 1/2 then f
  else if 1/2 < r then f + 1
  else if f % 2 = 0 then f else f + 1

/-! ### Signal gate — trader.py, Trader._is_signal_actionable (lines 351-394)

The analysis dict handed to the gate is read through .get with the
defaults used by the source; the fields the gate reads are modelled as a
structure.  Open positions are modelled by their Symbol fields. -/

/-- Fields of the analysis dict read by the signal gate:
signal (string, .get default HOLD), confidence, spread, risk_reward_ratio
(floats, .get default 0). -/
structure GateSignal where
  signal : String
  confidence : ℚ
  spread : ℚ
  risk_reward_ratio : ℚ
deriving DecidableEq

/-- Trader._is_signal_actionable: the if-chain of trader.py lines 358-390,
in source order (each failed check returns False before the next runs).
maxSpreadPips is Config.MAX_SPREAD_PIPS, maxOpenPositions is
Config.MAX_OPEN_POSITIONS, positions lists the Symbol of each open
position. -/
def is_signal_actionable (a : GateSignal) (symbol : String)
    (maxSpreadPips : ℚ) (maxOpenPositions : ℕ) (positions : List String) : Bool :=
  if a.signal = "HOLD" then false
  else if a.confidence < 7/10 then false
  else if maxSpreadPips < a.spread then false
  else if a.risk_reward_ratio < 3/2 then false
  else if maxOpenPositions ≤ positions.length then false
  else if symbol ∈ positions then false
  else true

/-! ### Risk state machine — trader.py

consecutive_losses is incremented by one on each loss feedback
(Trader._execute_trade, line 468) and gates trading in Trader._can_trade
(line 503): trading is allowed (mode Running) only while
consecutive_losses < Config.MAX_CONSECUTIVE_LOSSES, otherwise the machine
is effectively Paused. -/

inductive Mode where
  | Running
  | Paused
deriving DecidableEq

/-- Loss-streak component of the risk state. -/
structure RiskState where
  consecutive_losses : ℕ
deriving DecidableEq

/-- Loss feedback: self.consecutive_losses += 1 (trader.py line 468). -/
def lossFeedback (s : RiskState) : RiskState :=
  ⟨s.consecutive_losses + 1⟩

/-- Mode of the machine as enforced by Trader._can_trade line 503:
Paused exactly when consecutive_losses ≥ MAX_CONSECUTIVE_LOSSES. -/
def riskMode (maxLosses : ℕ) (s : RiskState) : Mode :=
  if maxLosses ≤ s.consecutive_losses then Mode.Paused else Mode.Running

/-! ### Evaluation cycle — trader.py, Trader.evaluate_and_execute (93-113)
and Trader._can_trade (480-511)

Each symbol evaluation may raise (Except.error) or complete, having
possibly executed one trade; the for-loop wraps each symbol in its own
try/except that logs and moves on (lines 106-110). -/

/-- Per-symbol loop of evaluate_and_execute lines 106-110: each symbol is
evaluated inside its own try/except, so a raising symbol is logged and
skipped and the loop continues with the rest; the trades executed by the
successful evaluations are collected. -/
def run_symbol_loop (eval_symbol : String → Except ε (Option τ)) :
    List String → List τ
  | [] => []
  | s :: rest =>
    (match eval_symbol s with
     | Except.ok (some t) => [t]
     | _ => []) ++ run_symbol_loop eval_symbol rest

/-- Trader._can_trade (trader.py lines 480-507): balance/equity check,
margin-level check, the hard-coded daily limit of 10 trades, and the
consecutive-loss limit from Config.MAX_CONSECUTIVE_LOSSES. -/
def can_trade (balance equity margin_level : ℚ)
    (daily_trades consecutive_losses max_consecutive_losses : ℕ) : Bool :=
  if balance ≤ 0 ∨ equity ≤ 0 then false
  else if 0 < margin_level ∧ margin_level < 200 then false
  else if 10 ≤ daily_trades then false
  else if max_consecutive_losses ≤ consecutive_losses then false
  else true

/-- Trader.evaluate_and_execute (trader.py lines 93-113): if _can_trade
fails, return before any symbol is scanned; otherwise run the per-symbol
loop over Config.CURRENCIES. -/
def evaluate_and_execute (balance equity margin_level : ℚ)
    (daily_trades consecutive_losses max_consecutive_losses : ℕ)
    (eval_symbol : String → Except ε (Option τ)) (currencies : List String) :
    List τ :=
  if can_trade balance equity margin_level daily_trades consecutive_losses
      max_consecutive_losses
  then run_symbol_loop eval_symbol currencies
  else []

/-! ### Position sizing — fxopen_handler.py,
FXOpenHandler.calculate_position_size (lines 334-370)

The symbol lookup supplies PipSize, MinLot and LotStep; they are passed
here directly.  Every ZeroDivisionError inside the try block
(stop_loss_pips = 0, pip_size = 0 or lot_step = 0) is caught by the
except handler, which returns the hard-coded 0.01. -/

/-- FXOpenHandler.calculate_position_size: pip_value = pip_size * 100000,
risk_per_pip = risk_amount / stop_loss_pips, position size rounded with
the Python built-in round to a multiple of lot_step, then clamped up to
min_lot; any ZeroDivisionError is caught and 0.01 returned (lines
368-370). -/
def calculate_position_size (pip_size min_lot lot_step risk_amount : ℚ)
    (stop_loss_pips : ℕ) : ℚ :=
  if stop_loss_pips = 0 ∨ pip_size = 0 ∨ lot_step = 0 then 1/100
  else
    let pip_value := pip_size * 100000
    let risk_per_pip := risk_amount / stop_loss_pips
    let position_size := risk_per_pip / pip_value
    let rounded := (pyRound (position_size / lot_step) : ℚ) * lot_step
    max rounded min_lot

/-- Modelled from the spec, section 4.4: the raw size
(risk_amount / stopLossDistancePips) / (pip_size * 100000) floored to the
nearest lot_step and clamped to at least min_lot. -/
def spec_floor_position_size (pip_size min_lot lot_step risk_amount : ℚ)
    (stop_loss_pips : ℕ) : ℚ :=
  max ((⌊risk_amount / stop_loss_pips / (pip_size * 100000) / lot_step⌋ : ℚ) * lot_step)
    min_lot

/-! ### Indicator engine — trader.py

The indicator dict is modelled as an association list in insertion
order.  np.std takes a square root, which has no exact rational value,
so the standard-deviation function is a parameter of the embedding; the
other indicator arithmetic is exact. -/

/-- Candle fields read by the indicator engine (dict keys Close, High and
Low in the source). -/
structure Candle where
  close : ℚ
  high : ℚ
  low : ℚ
deriving DecidableEq

/-- Trader._calculate_ema (trader.py 238-246): multiplier 2/(period+1),
seeded with the first price, folded over the rest (prices[0] would raise
on an empty list; every call site guards the length, and the empty case
is given seed 0). -/
def calculate_ema (prices : List ℚ) (period : ℕ) : ℚ :=
  let multiplier : ℚ := 2 / (period + 1)
  match prices with
  | [] => 0
  | p :: rest =>
    rest.foldl (fun ema price => price * multiplier + ema * (1 - multiplier)) p

/-- Deltas prices[i] - prices[i-1] (trader.py line 253). -/
def price_deltas (prices : List ℚ) : List ℚ :=
  List.zipWith (fun cur prev => cur - prev) prices.tail prices

/-- Average gain over the last period deltas (trader.py 254, 257). -/
def avg_gain (prices : List ℚ) (period : ℕ) : ℚ :=
  npMean (pyLastN period ((price_deltas prices).map fun d => if 0 < d then d else 0))

/-- Average loss over the last period deltas (trader.py 255, 258). -/
def avg_loss (prices : List ℚ) (period : ℕ) : ℚ :=
  npMean (pyLastN period ((price_deltas prices).map fun d => if d < 0 then -d else 0))

/-- Trader._calculate_rsi (trader.py 248-266). -/
def calculate_rsi (prices : List ℚ) (period : ℕ) : ℚ :=
  if prices.length < period + 1 then 50
  else if avg_loss prices period = 0 then 100
  else
    let rs := avg_gain prices period / avg_loss prices period
    100 - 100 / (1 + rs)

/-- Trader._calculate_macd (trader.py 268-284), with the 0.8-scaled
single-point signal-line approximation of the source. -/
def calculate_macd (prices : List ℚ) : List (String × ℚ) :=
  let macd_line := calculate_ema prices 12 - calculate_ema prices 26
  let signal_line := macd_line * (8/10)
  [("MACD", macd_line), ("MACD_Signal", signal_line),
   ("MACD_Histogram", macd_line - signal_line)]

/-- Trader._calculate_bollinger_bands (trader.py 286-298); np.std is the
std parameter. -/
def calculate_bollinger_bands (std : List ℚ → ℚ) (prices : List ℚ)
    (period : ℕ) (std_dev : ℚ) : List (String × ℚ) :=
  let sma := npMean (pyLastN period prices)
  let s := std (pyLastN period prices)
  [("BB_Upper", sma + s * std_dev), ("BB_Middle", sma),
   ("BB_Lower", sma - s * std_dev)]

/-- Trader._calculate_support_resistance (trader.py 300-314): max/min of
the last 20 values; max() and min() raise on an empty list and the except
handler returns zeros. -/
def calculate_support_resistance (highs lows : List ℚ) : List (String × ℚ) :=
  match (pyLastN 20 highs).max?, (pyLastN 20 lows).min? with
  | some r, some s => [("Resistance", r), ("Support", s)]
  | _, _ => [("Resistance", 0), ("Support", 0)]

/-- Trader._calculate_technical_indicators (trader.py 181-229): the
indicator set computed from the last 50 candles, or empty when fewer
than 20 candles of history exist. -/
def calculate_technical_indicators (std : List ℚ → ℚ) (hist : List Candle) :
    List (String × ℚ) :=
  if hist.length < 20 then []
  else
    let closes := (pyLastN 50 hist).map Candle.close
    let highs := (pyLastN 50 hist).map Candle.high
    let lows := (pyLastN 50 hist).map Candle.low
    if closes = [] ∨ highs = [] ∨ lows = [] then []
    else
      (if 20 ≤ closes.length then [("SMA_20", npMean (pyLastN 20 closes))] else []) ++
      (if 50 ≤ closes.length then [("SMA_50", npMean (pyLastN 50 closes))] else []) ++
      (if 20 ≤ closes.length then [("EMA_20", calculate_ema closes 20)] else []) ++
      (if 14 ≤ closes.length then [("RSI", calculate_rsi closes 14)] else []) ++
      (if 26 ≤ closes.length then calculate_macd closes else []) ++
      (if 20 ≤ closes.length then calculate_bollinger_bands std closes 20 2 else []) ++
      calculate_support_resistance highs lows

/-- Trader._calculate_volatility (trader.py 329-349): tfs lists the
values of the timeframe_analysis dict; an empty RSI collection yields
Normal, the in-band average yields Low. -/
def calculate_volatility (tfs : List (List (String × ℚ))) : String :=
  let rsi_values := tfs.filterMap (List.lookup "RSI")
  if rsi_values = [] then "Normal"
  else
    let avg_rsi := npMean rsi_values
    if 70 < avg_rsi ∨ avg_rsi < 30 then "High"
    else if 60 < avg_rsi ∨ avg_rsi < 40 then "Medium"
    else "Low"

/-- Modelled from the spec, section 4.2, with the middle band corrected
from the claim text (Normal) to the Low the code returns: High when the
average RSI is above 70 or below 30, Medium when above 60 or below 40,
Low otherwise. -/
def volatility_class (avg_rsi : ℚ) : String :=
  if 70 < avg_rsi ∨ avg_rsi < 30 then "High"
  else if 60 < avg_rsi ∨ avg_rsi < 40 then "Medium"
  else "Low"

/-! ### Oracle output validation — ai_analyzer.py,
AIAnalyzer._validate_analysis_result (160-210) and
AIAnalyzer._get_default_analysis (212-232)

The raw oracle output is a parsed JSON map; each field of interest is
either absent or a scalar value.  The try/except of
_validate_analysis_result catches every conversion or arithmetic error
and degrades to the default analysis.  The timestamp and symbol
bookkeeping fields of the source are not modelled. -/

/-- Scalar JSON value as seen by the validator: a number (float() and
subtraction both work), a numeric string (float() works but subtraction
raises TypeError), or a value on which both raise. -/
inductive PVal where
  | num (q : ℚ)
  | numstr (q : ℚ)
  | nonnum
deriving DecidableEq

/-- float(v): some value when the conversion succeeds, none when it
raises. -/
def pyFloat : PVal → Option ℚ
  | PVal.num q => some q
  | PVal.numstr q => some q
  | PVal.nonnum => none

/-- Numeric operand of a Python subtraction: some value for an actual
number, none (TypeError) otherwise. -/
def pyArith : PVal → Option ℚ
  | PVal.num q => some q
  | _ => none

/-- Raw oracle output fields read by the validator; absent fields are
none. -/
structure RawAnalysis where
  signal : Option String
  confidence : Option PVal
  entry_price : Option PVal
  stop_loss : Option PVal
  take_profit : Option PVal
  risk_reward_ratio : Option PVal
deriving DecidableEq

/-- Validated analysis restricted to the modelled fields.  The price and
risk-reward fields can hold an unconverted raw value, because the source
only converts them to float when current_price > 0 and leaves
risk_reward_ratio untouched when it is present. -/
structure AnalysisResult where
  signal : String
  confidence : ℚ
  entry_price : PVal
  stop_loss : PVal
  take_profit : PVal
  risk_reward_ratio : PVal
deriving DecidableEq

/-- AIAnalyzer._get_default_analysis (212-232), restricted to the
modelled fields: HOLD, zero confidence, zero prices, risk-reward 1.0. -/
def get_default_analysis : AnalysisResult :=
  { signal := "HOLD", confidence := 0, entry_price := PVal.num 0,
    stop_loss := PVal.num 0, take_profit := PVal.num 0,
    risk_reward_ratio := PVal.num 1 }

/-- Price validation step (ai_analyzer.py 179-183): when
current_price > 0 each price is converted with float() (none models a
raised conversion error, caught by the enclosing except); when
current_price ≤ 0 the raw values are left as they are. -/
def convert_prices (current_price : ℚ) (ep0 sl0 tp0 : PVal) :
    Option (PVal × PVal × PVal) :=
  if 0 < current_price then
    match pyFloat ep0, pyFloat sl0, pyFloat tp0 with
    | some e, some s, some t => some (PVal.num e, PVal.num s, PVal.num t)
    | _, _, _ => none
  else some (ep0, sl0, tp0)

/-- Risk-reward derivation when the field is absent (ai_analyzer.py
186-200), applied to the already coerced signal: for BUY risk =
abs(entry - stop), reward = abs(target - entry); for SELL the mirrored
differences; otherwise risk = reward = 1; ratio = reward / risk when
risk > 0, else 1.0.  A subtraction on a non-number raises (none), which
the enclosing except turns into the default analysis. -/
def derive_rr (sig : String) (ep sl tp : PVal) : Option PVal :=
  if sig = "BUY" then
    match pyArith ep, pyArith sl, pyArith tp with
    | some e, some s, some t =>
      some (PVal.num (if 0 < |e - s| then |t - e| / |e - s| else 1))
    | _, _, _ => none
  else if sig = "SELL" then
    match pyArith ep, pyArith sl, pyArith tp with
    | some e, some s, some t =>
      some (PVal.num (if 0 < |s - e| then |e - t| / |s - e| else 1))
    | _, _, _ => none
  else some (PVal.num 1)

/-- Body of AIAnalyzer._validate_analysis_result once the five required
fields are known present, in source order: signal coercion (171-172),
confidence conversion and clamp (175-176), price validation (179-183),
risk-reward derivation when the field is absent (186-200); every raised
conversion or arithmetic error yields the default analysis via the
except handler (208-210). -/
def validate_core (sig0 : String) (conf0 ep0 sl0 tp0 : PVal)
    (rr0 : Option PVal) (current_price : ℚ) : AnalysisResult :=
  let sig := if sig0 = "BUY" ∨ sig0 = "SELL" ∨ sig0 = "HOLD" then sig0 else "HOLD"
  match pyFloat conf0 with
  | none => get_default_analysis
  | some c =>
    let conf := max 0 (min 1 c)
    match convert_prices current_price ep0 sl0 tp0 with
    | none => get_default_analysis
    | some (ep, sl, tp) =>
      match rr0 with
      | some rr => ⟨sig, conf, ep, sl, tp, rr⟩
      | none =>
        match derive_rr sig ep sl tp with
        | none => get_default_analysis
        | some rr => ⟨sig, conf, ep, sl, tp, rr⟩

/-- AIAnalyzer._validate_analysis_result (160-210): the required-fields
check of lines 164-168 returns the default analysis when signal,
confidence, entry_price, stop_loss or take_profit is missing; otherwise
the validation body runs. -/
def validate_analysis_result (a : RawAnalysis) (current_price : ℚ) :
    AnalysisResult :=
  match a.signal, a.confidence, a.entry_price, a.stop_loss, a.take_profit with
  | some sig0, some conf0, some ep0, some sl0, some tp0 =>
    validate_core sig0 conf0 ep0 sl0 tp0 a.risk_reward_ratio current_price
  | _, _, _, _, _ => get_default_analysis

/-! ### Helper lemmas -/

/-- Iterating loss feedback k times from a clean state leaves k losses. -/
theorem lossFeedback_iterate (k : ℕ) : lossFeedback^[k] ⟨0⟩ = ⟨k⟩ := by
  induction k with
  | zero => rfl
  | succ n ih => rw [Function.iterate_succ_apply', ih]; rfl

/-- Characterisation of the Paused mode. -/
theorem riskMode_eq_paused_iff (maxLosses : ℕ) (s : RiskState) :
    riskMode maxLosses s = Mode.Paused ↔ maxLosses ≤ s.consecutive_losses := by
  unfold riskMode
  split_ifs with h <;> simp [h]

/-- Characterisation of the Running mode. -/
theorem riskMode_eq_running_iff (maxLosses : ℕ) (s : RiskState) :
    riskMode maxLosses s = Mode.Running ↔ s.consecutive_losses < maxLosses := by
  unfold riskMode
  split_ifs with h
  · simp [Nat.not_lt.mpr h]
  · simp [Nat.lt_of_not_le h]

/-- The per-symbol loop collects exactly the trades of the symbols whose
evaluation completes with a trade; it is total, so no per-symbol failure
escapes it. -/
theorem run_symbol_loop_eq_filterMap (eval_symbol : String → Except ε (Option τ))
    (syms : List String) :
    run_symbol_loop eval_symbol syms = syms.filterMap (fun s =>
      match eval_symbol s with
      | Except.ok (some t) => some t
      | _ => none) := by
  induction syms with
  | nil => rfl
  | cons x xs ih =>
    simp only [run_symbol_loop, List.filterMap_cons]
    cases h : eval_symbol x with
    | error e => simp [h, ih]
    | ok o => cases o <;> simp [h, ih]

/-- Mean of a list of non-negative rationals is non-negative. -/
theorem npMean_nonneg (l : List ℚ) (h : ∀ x ∈ l, 0 ≤ x) : 0 ≤ npMean l := by
  unfold npMean
  exact div_nonneg (List.sum_nonneg h) (Nat.cast_nonneg _)

/-- Elements of a Python tail slice come from the list. -/
theorem mem_of_mem_pyLastN (n : ℕ) (l : List α) (x : α) (h : x ∈ pyLastN n l) :
    x ∈ l := by
  unfold pyLastN at h
  split_ifs at h with hn
  · exact h
  · exact List.mem_of_mem_drop h

/-- The average gain of the RSI computation is non-negative. -/
theorem avg_gain_nonneg (prices : List ℚ) (period : ℕ) :
    0 ≤ avg_gain prices period := by
  unfold avg_gain
  apply npMean_nonneg
  intro x hx
  obtain ⟨d, _, rfl⟩ := List.mem_map.mp (mem_of_mem_pyLastN _ _ _ hx)
  split_ifs with hd
  · exact le_of_lt hd
  · exact le_refl 0

/-- The average loss of the RSI computation is non-negative. -/
theorem avg_loss_nonneg (prices : List ℚ) (period : ℕ) :
    0 ≤ avg_loss prices period := by
  unfold avg_loss
  apply npMean_nonneg
  intro x hx
  obtain ⟨d, _, rfl⟩ := List.mem_map.mp (mem_of_mem_pyLastN _ _ _ hx)
  split_ifs with hd
  · linarith
  · exact le_refl 0

/-- Unfolding equation of the validator when all required fields are
present. -/
theorem validate_eq_core (sig0 : String) (conf0 ep0 sl0 tp0 : PVal)
    (rr0 : Option PVal) (cp : ℚ) :
    validate_analysis_result ⟨some sig0, some conf0, some ep0, some sl0, some tp0, rr0⟩ cp =
      validate_core sig0 conf0 ep0 sl0 tp0 rr0 cp := rfl

/-- Every run of the validation body returns either the default analysis
or a record carrying the coerced signal and the clamped confidence. -/
theorem validate_core_shape (sig0 : String) (conf0 ep0 sl0 tp0 : PVal)
    (rr0 : Option PVal) (cp : ℚ) :
    validate_core sig0 conf0 ep0 sl0 tp0 rr0 cp = get_default_analysis ∨
    ∃ c ep sl tp rr, validate_core sig0 conf0 ep0 sl0 tp0 rr0 cp =
      ⟨if sig0 = "BUY" ∨ sig0 = "SELL" ∨ sig0 = "HOLD" then sig0 else "HOLD",
       max 0 (min 1 c), ep, sl, tp, rr⟩ := by
  unfold validate_core
  cases conf0 with
  | nonnum => exact Or.inl rfl
  | num c =>
    simp only [pyFloat]
    rcases h : convert_prices cp ep0 sl0 tp0 with _ | ⟨ep, sl, tp⟩
    · simp only [h]
      exact Or.inl trivial
    · simp only [h]
      rcases rr0 with _ | rr
      · rcases h2 : derive_rr
            (if sig0 = "BUY" ∨ sig0 = "SELL" ∨ sig0 = "HOLD" then sig0 else "HOLD")
            ep sl tp with _ | rr2
        · simp only [h2]
          exact Or.inl trivial
        · simp only [h2]
          exact Or.inr ⟨c, ep, sl, tp, rr2, rfl⟩
      · exact Or.inr ⟨c, ep, sl, tp, rr, rfl⟩
  | numstr c =>
    simp only [pyFloat]
    rcases h : convert_prices cp ep0 sl0 tp0 with _ | ⟨ep, sl, tp⟩
    · simp only [h]
      exact Or.inl trivial
    · simp only [h]
      rcases rr0 with _ | rr
      · rcases h2 : derive_rr
            (if sig0 = "BUY" ∨ sig0 = "SELL" ∨ sig0 = "HOLD" then sig0 else "HOLD")
            ep sl tp with _ | rr2
        · simp only [h2]
          exact Or.inl trivial
        · simp only [h2]
          exact Or.inr ⟨c, ep, sl, tp, rr2, rfl⟩
      · exact Or.inr ⟨c, ep, sl, tp, rr, rfl⟩

/-- The validated signal is always one of BUY, SELL and HOLD. -/
theorem validate_signal_mem (a : RawAnalysis) (cp : ℚ) :
    (validate_analysis_result a cp).signal = "BUY" ∨
    (validate_analysis_result a cp).signal = "SELL" ∨
    (validate_analysis_result a cp).signal = "HOLD" := by
  obtain ⟨s0, c0, e0, l0, t0, r0⟩ := a
  rcases s0 with _ | sig0 <;> rcases c0 with _ | conf0 <;>
    rcases e0 with _ | ep0 <;> rcases l0 with _ | sl0 <;> rcases t0 with _ | tp0 <;>
    try exact Or.inr (Or.inr rfl)
  rcases validate_core_shape sig0 conf0 ep0 sl0 tp0 r0 cp with h | ⟨c, ep, sl, tp, rr, h⟩
  · rw [validate_eq_core, h]
    exact Or.inr (Or.inr rfl)
  · rw [validate_eq_core, h]
    by_cases hs : sig0 = "BUY" ∨ sig0 = "SELL" ∨ sig0 = "HOLD"
    · show (if sig0 = "BUY" ∨ sig0 = "SELL" ∨ sig0 = "HOLD" then sig0 else "HOLD") = "BUY" ∨ _
      rw [if_pos hs]
      exact hs
    · show (if sig0 = "BUY" ∨ sig0 = "SELL" ∨ sig0 = "HOLD" then sig0 else "HOLD") = "BUY" ∨ _
      rw [if_neg hs]
      exact Or.inr (Or.inr rfl)

/-- The validated confidence is always clamped to [0, 1]. -/
theorem validate_confidence_bounds (a : RawAnalysis) (cp : ℚ) :
    0 ≤ (validate_analysis_result a cp).confidence ∧
    (validate_analysis_result a cp).confidence ≤ 1 := by
  obtain ⟨s0, c0, e0, l0, t0, r0⟩ := a
  rcases s0 with _ | sig0 <;> rcases c0 with _ | conf0 <;>
    rcases e0 with _ | ep0 <;> rcases l0 with _ | sl0 <;> rcases t0 with _ | tp0 <;>
    try exact ⟨le_refl 0, zero_le_one⟩
  rcases validate_core_shape sig0 conf0 ep0 sl0 tp0 r0 cp with h | ⟨c, ep, sl, tp, rr, h⟩
  · rw [validate_eq_core, h]
    exact ⟨le_refl 0, zero_le_one⟩
  · rw [validate_eq_core, h]
    exact ⟨le_max_left 0 _, max_le zero_le_one (min_le_left 1 c)⟩

/-- A missing required field degrades to the default analysis. -/
theorem validate_missing_default (a : RawAnalysis) (cp : ℚ)
    (h : a.signal = none ∨ a.confidence = none ∨ a.entry_price = none ∨
      a.stop_loss = none ∨ a.take_profit = none) :
    validate_analysis_result a cp = get_default_analysis := by
  obtain ⟨s0, c0, e0, l0, t0, r0⟩ := a
  rcases s0 with _ | sig0 <;> rcases c0 with _ | conf0 <;>
    rcases e0 with _ | ep0 <;> rcases l0 with _ | sl0 <;> rcases t0 with _ | tp0 <;>
    first
      | rfl
      | (rcases h with h | h | h | h | h <;> exact Option.noConfusion h)

/-- A present signal value other than BUY and SELL always validates to
the side HOLD. -/
theorem validate_invalid_signal_hold (a : RawAnalysis) (cp : ℚ) (s : String)
    (hs : a.signal = some s) (hbuy : s ≠ "BUY") (hsell : s ≠ "SELL") :
    (validate_analysis_result a cp).signal = "HOLD" := by
  obtain ⟨s0, c0, e0, l0, t0, r0⟩ := a
  dsimp only at hs
  subst hs
  rcases c0 with _ | conf0 <;> rcases e0 with _ | ep0 <;>
    rcases l0 with _ | sl0 <;> rcases t0 with _ | tp0 <;> try rfl
  rcases validate_core_shape s conf0 ep0 sl0 tp0 r0 cp with h | ⟨c, ep, sl, tp, rr, h⟩
  · rw [validate_eq_core, h]
    rfl
  · rw [validate_eq_core, h]
    show (if s = "BUY" ∨ s = "SELL" ∨ s = "HOLD" then s else "HOLD") = "HOLD"
    by_cases hc : s = "BUY" ∨ s = "SELL" ∨ s = "HOLD"
    · rcases hc with hc | hc | hc
      · exact absurd hc hbuy
      · exact absurd hc hsell
      · rw [if_pos (Or.inr (Or.inr hc))]
        exact hc
    · rw [if_neg hc]

/-- With a positive current price, a price value rejected by float()
makes the price-validation step raise. -/
theorem convert_prices_none_of_nonnum (cp : ℚ) (hcp : 0 < cp)
    (ep0 sl0 tp0 : PVal)
    (hv : ep0 = PVal.nonnum ∨ sl0 = PVal.nonnum ∨ tp0 = PVal.nonnum) :
    convert_prices cp ep0 sl0 tp0 = none := by
  unfold convert_prices
  rw [if_pos hcp]
  cases ep0 <;> cases sl0 <;> cases tp0 <;>
    first
      | rfl
      | (rcases hv with h | h | h <;> exact PVal.noConfusion h)

/-- With a non-positive current price, the price-validation step keeps
the raw values. -/
theorem convert_prices_nonpos (cp : ℚ) (ep0 sl0 tp0 : PVal) (hcp : ¬ 0 < cp) :
    convert_prices cp ep0 sl0 tp0 = some (ep0, sl0, tp0) := by
  unfold convert_prices
  rw [if_neg hcp]

/-- Risk-reward derivation for a BUY or SELL side raises when one of the
prices is not a number. -/
theorem derive_rr_none (sig : String) (ep sl tp : PVal)
    (hsig : sig = "BUY" ∨ sig = "SELL")
    (hv : pyArith ep = none ∨ pyArith sl = none ∨ pyArith tp = none) :
    derive_rr sig ep sl tp = none := by
  unfold derive_rr
  rcases hsig with rfl | rfl
  · rw [if_pos rfl]
    cases ep <;> cases sl <;> cases tp <;>
      first
        | rfl
        | (rcases hv with h | h | h <;> exact Option.noConfusion h)
  · rw [if_neg (by decide), if_pos rfl]
    cases ep <;> cases sl <;> cases tp <;>
      first
        | rfl
        | (rcases hv with h | h | h <;> exact Option.noConfusion h)

/-- A present confidence value rejected by float() degrades to the
default analysis. -/
theorem validate_malformed_confidence (a : RawAnalysis) (cp : ℚ) (v : PVal)
    (hv : a.confidence = some v) (hf : pyFloat v = none) :
    validate_analysis_result a cp = get_default_analysis := by
  obtain ⟨s0, c0, e0, l0, t0, r0⟩ := a
  dsimp only at hv
  subst hv
  rcases s0 with _ | sig0 <;> rcases e0 with _ | ep0 <;>
    rcases l0 with _ | sl0 <;> rcases t0 with _ | tp0 <;> try rfl
  rw [validate_eq_core]
  unfold validate_core
  simp only [hf]

/-- With a positive current price, a present price value rejected by
float() degrades to the default analysis. -/
theorem validate_malformed_price_default (a : RawAnalysis) (cp : ℚ)
    (hcp : 0 < cp) (v : PVal)
    (hv : a.entry_price = some v ∨ a.stop_loss = some v ∨ a.take_profit = some v)
    (hf : pyFloat v = none) :
    validate_analysis_result a cp = get_default_analysis := by
  have hvn : v = PVal.nonnum := by
    cases v with
    | num q => exact Option.noConfusion hf
    | numstr q => exact Option.noConfusion hf
    | nonnum => rfl
  subst hvn
  obtain ⟨s0, c0, e0, l0, t0, r0⟩ := a
  dsimp only at hv
  rcases s0 with _ | sig0 <;> rcases c0 with _ | conf0 <;>
    rcases e0 with _ | ep0 <;> rcases l0 with _ | sl0 <;> rcases t0 with _ | tp0 <;>
    try rfl
  have hvv : ep0 = PVal.nonnum ∨ sl0 = PVal.nonnum ∨ tp0 = PVal.nonnum := by
    rcases hv with h | h | h
    · exact Or.inl (Option.some.inj h)
    · exact Or.inr (Or.inl (Option.some.inj h))
    · exact Or.inr (Or.inr (Option.some.inj h))
  rw [validate_eq_core]
  unfold validate_core
  cases conf0 with
  | nonnum => rfl
  | num c => simp only [pyFloat, convert_prices_none_of_nonnum cp hcp ep0 sl0 tp0 hvv]
  | numstr c => simp only [pyFloat, convert_prices_none_of_nonnum cp hcp ep0 sl0 tp0 hvv]

/-- With a non-positive current price, an absent risk_reward_ratio and a
BUY or SELL side, a non-numeric price makes the derivation subtraction
raise and the output degrades to the default analysis. -/
theorem validate_derive_failure_default (a : RawAnalysis) (cp : ℚ)
    (hcp : ¬ 0 < cp) (hrr : a.risk_reward_ratio = none) (s : String)
    (hs : a.signal = some s) (hsig : s = "BUY" ∨ s = "SELL") (v : PVal)
    (hv : a.entry_price = some v ∨ a.stop_loss = some v ∨ a.take_profit = some v)
    (ha : pyArith v = none) :
    validate_analysis_result a cp = get_default_analysis := by
  obtain ⟨s0, c0, e0, l0, t0, r0⟩ := a
  dsimp only at hrr hs hv
  subst hrr
  subst hs
  rcases c0 with _ | conf0 <;> rcases e0 with _ | ep0 <;>
    rcases l0 with _ | sl0 <;> rcases t0 with _ | tp0 <;> try rfl
  have hvv : pyArith ep0 = none ∨ pyArith sl0 = none ∨ pyArith tp0 = none := by
    rcases hv with h | h | h
    · refine Or.inl ?_
      rw [Option.some.inj h]
      exact ha
    · refine Or.inr (Or.inl ?_)
      rw [Option.some.inj h]
      exact ha
    · refine Or.inr (Or.inr ?_)
      rw [Option.some.inj h]
      exact ha
  have hsigeq : (if s = "BUY" ∨ s = "SELL" ∨ s = "HOLD" then s else "HOLD") = s := by
    rcases hsig with rfl | rfl
    · rw [if_pos (Or.inl rfl)]
    · rw [if_pos (Or.inr (Or.inl rfl))]
  rw [validate_eq_core]
  unfold validate_core
  cases conf0 with
  | nonnum => rfl
  | num c =>
    simp only [pyFloat, convert_prices_nonpos cp ep0 sl0 tp0 hcp, hsigeq,
      derive_rr_none s ep0 sl0 tp0 hsig hvv]
  | numstr c =>
    simp only [pyFloat, convert_prices_nonpos cp ep0 sl0 tp0 hcp, hsigeq,
      derive_rr_none s ep0 sl0 tp0 hsig hvv]

/-- With all required fields present, a convertible confidence, a present
risk_reward_ratio and a non-positive current price, the raw prices and
the raw risk_reward_ratio go through unvalidated. -/
theorem validate_rr_passthrough (sig0 : String) (conf0 : PVal) (c : ℚ)
    (ep0 sl0 tp0 rr : PVal) (cp : ℚ) (hc : pyFloat conf0 = some c)
    (hcp : ¬ 0 < cp) :
    validate_analysis_result
      ⟨some sig0, some conf0, some ep0, some sl0, some tp0, some rr⟩ cp =
      ⟨if sig0 = "BUY" ∨ sig0 = "SELL" ∨ sig0 = "HOLD" then sig0 else "HOLD",
       max 0 (min 1 c), ep0, sl0, tp0, rr⟩ := by
  rw [validate_eq_core]
  unfold validate_core
  simp only [hc, convert_prices_nonpos cp ep0 sl0 tp0 hcp]

/-! ### Claim theorems -/

/-- C1: the signal-acceptance gate returns true only if the side is not
HOLD, confidence ≥ 0.70, spread ≤ the configured maximum,
risk_reward_ratio ≥ 1.5, the open-position count is below
MAX_OPEN_POSITIONS, and no open position exists in the signal symbol
(checked in this order, each failing check returning false at once); in
particular a HOLD signal is never accepted. -/
theorem C1_signal_gate_accepts_only_if (a : GateSignal) (symbol : String)
    (maxSpreadPips : ℚ) (maxOpenPositions : ℕ) (positions : List String)
    (h : is_signal_actionable a symbol maxSpreadPips maxOpenPositions positions = true) :
    a.signal ≠ "HOLD" ∧ 7/10 ≤ a.confidence ∧ a.spread ≤ maxSpreadPips ∧
    3/2 ≤ a.risk_reward_ratio ∧ positions.length < maxOpenPositions ∧
    symbol ∉ positions := by
  unfold is_signal_actionable at h
  split_ifs at h with h1 h2 h3 h4 h5 h6
  · exact ⟨h1, not_lt.mp h2, not_lt.mp h3, not_lt.mp h4, Nat.lt_of_not_le h5, h6⟩

/-- Witness for C1 at a concrete accepted BUY signal. -/
theorem C1_witness :
    is_signal_actionable ⟨"BUY", 9/10, 1, 2⟩ "EURUSD" 3 5 ["GBPUSD"] = true ∧
    (GateSignal.signal ⟨"BUY", 9/10, 1, 2⟩ ≠ "HOLD" ∧
     7/10 ≤ GateSignal.confidence ⟨"BUY", 9/10, 1, 2⟩ ∧
     GateSignal.spread ⟨"BUY", 9/10, 1, 2⟩ ≤ 3 ∧
     3/2 ≤ GateSignal.risk_reward_ratio ⟨"BUY", 9/10, 1, 2⟩ ∧
     (["GBPUSD"] : List String).length < 5 ∧
     "EURUSD" ∉ (["GBPUSD"] : List String)) :=
  ⟨by decide, C1_signal_gate_accepts_only_if _ _ _ _ _ (by decide)⟩

/-- C3: starting from a clean Running state, after maxLosses consecutive
loss feedbacks the mode is Paused; the mode is Running exactly before
that point, the Running-to-Paused transition happens at exactly one step
of the loss trace, and a further loss feedback from any Paused state
leaves the machine Paused. -/
theorem C3_pause_after_max_losses (maxLosses : ℕ) (hpos : 0 < maxLosses) :
    (∀ k, riskMode maxLosses (lossFeedback^[k] ⟨0⟩) = Mode.Running ↔ k < maxLosses) ∧
    (∀ s, riskMode maxLosses s = Mode.Paused →
      riskMode maxLosses (lossFeedback s) = Mode.Paused) ∧
    (∃! k, riskMode maxLosses (lossFeedback^[k] ⟨0⟩) = Mode.Running ∧
      riskMode maxLosses (lossFeedback^[k + 1] ⟨0⟩) = Mode.Paused) := by
  have H : ∀ k, riskMode maxLosses (lossFeedback^[k] ⟨0⟩) = Mode.Running ↔ k < maxLosses := by
    intro k
    rw [lossFeedback_iterate, riskMode_eq_running_iff]
  refine ⟨H, fun s hs => ?_, ?_⟩
  · rw [riskMode_eq_paused_iff] at hs ⊢
    exact Nat.le_succ_of_le hs
  · refine ⟨maxLosses - 1, ⟨(H _).mpr (by omega), ?_⟩, fun k hk => ?_⟩
    · rw [lossFeedback_iterate, riskMode_eq_paused_iff]
      show maxLosses ≤ maxLosses - 1 + 1
      omega
    · have h1 := (H k).mp hk.1
      have h2 := hk.2
      rw [lossFeedback_iterate, riskMode_eq_paused_iff] at h2
      have h3 : maxLosses ≤ k + 1 := h2
      omega

/-- Witness for C3 with MAX_CONSECUTIVE_LOSSES = 3 (the config default). -/
theorem C3_witness :
    0 < 3 ∧ riskMode 3 (lossFeedback^[2] ⟨0⟩) = Mode.Running :=
  ⟨by decide, ((C3_pause_after_max_losses 3 (by decide)).1 2).mpr (by decide)⟩

/-- C8: a symbol whose evaluation completes with a trade contributes that
trade to the cycle result whatever the other symbols do (failures
included), and the cycle is a total function equal to a filterMap over
the symbols, so a per-symbol failure never propagates out of it. -/
theorem C8_symbol_failure_isolated (eval_symbol : String → Except ε (Option τ))
    (syms : List String) (s : String) (t : τ)
    (hmem : s ∈ syms) (hok : eval_symbol s = Except.ok (some t)) :
    t ∈ run_symbol_loop eval_symbol syms ∧
    run_symbol_loop eval_symbol syms = syms.filterMap (fun s2 =>
      match eval_symbol s2 with
      | Except.ok (some t2) => some t2
      | _ => none) := by
  refine ⟨?_, run_symbol_loop_eq_filterMap eval_symbol syms⟩
  rw [run_symbol_loop_eq_filterMap]
  exact List.mem_filterMap.mpr ⟨s, hmem, by rw [hok]⟩

/-- Witness for C8: the EURUSD evaluation raises, yet GBPUSD is evaluated
and its trade executes. -/
theorem C8_witness :
    "GBPUSD" ∈ (["EURUSD", "GBPUSD"] : List String) ∧
    (fun s => if s = "EURUSD" then (Except.error () : Except Unit (Option String))
      else Except.ok (some s)) "GBPUSD" = Except.ok (some "GBPUSD") ∧
    "GBPUSD" ∈ run_symbol_loop
      (fun s => if s = "EURUSD" then (Except.error () : Except Unit (Option String))
        else Except.ok (some s)) ["EURUSD", "GBPUSD"] := by
  refine ⟨by decide, by simp, ?_⟩
  exact (C8_symbol_failure_isolated _ ["EURUSD", "GBPUSD"] "GBPUSD" "GBPUSD"
    (by decide) (by simp)).1

/-- C10: once the daily trade counter has reached 10 the trading-allowed
check returns false and the evaluation cycle scans no symbol and submits
no order, whatever the balance, equity, margin level, loss counters,
configured loss limit, symbol list and per-symbol behaviour; the cap of
10 is a literal in the code, not a configuration option. -/
theorem C10_daily_trade_cap (balance equity margin_level : ℚ)
    (daily_trades consecutive_losses max_consecutive_losses : ℕ)
    (eval_symbol : String → Except ε (Option τ)) (currencies : List String)
    (h : 10 ≤ daily_trades) :
    can_trade balance equity margin_level daily_trades consecutive_losses
      max_consecutive_losses = false ∧
    evaluate_and_execute balance equity margin_level daily_trades
      consecutive_losses max_consecutive_losses eval_symbol currencies = [] := by
  have hc : can_trade balance equity margin_level daily_trades consecutive_losses
      max_consecutive_losses = false := by
    unfold can_trade
    split_ifs <;> simp_all
  refine ⟨hc, ?_⟩
  simp [evaluate_and_execute, hc]

/-- Witness for C10 at a healthy account that has hit the 10-trade cap. -/
theorem C10_witness :
    (10 ≤ 10) ∧
    (can_trade 1000 1000 500 10 0 3 = false ∧
     evaluate_and_execute 1000 1000 500 10 0 3
       (fun _ => (Except.ok (some "trade") : Except Unit (Option String)))
       ["EURUSD", "GBPUSD"] = []) :=
  ⟨by decide, C10_daily_trade_cap 1000 1000 500 10 0 3 _ _ (by decide)⟩

/-- C2 counterexample: at pip_size 0.0001, min_lot = lot_step = 0.01,
risk_amount 1.9 and 10 stop-loss pips the raw size is 0.019 lots; the code
rounds up to 0.02 while the spec text (floor to the nearest lot_step)
gives 0.01. -/
theorem C2_counterexample :
    calculate_position_size (1/10000) (1/100) (1/100) (19/10) 10 = 2/100 ∧
    spec_floor_position_size (1/10000) (1/100) (1/100) (19/10) 10 = 1/100 ∧
    calculate_position_size (1/10000) (1/100) (1/100) (19/10) 10 ≠
      spec_floor_position_size (1/10000) (1/100) (1/100) (19/10) 10 := by
  refine ⟨by decide, by decide, by decide⟩

/-- C2 (amended): for positive pip_size, lot_step and stop-loss distance
the returned volume equals the raw size
((risk_amount / stopLossDistancePips) / (pip_size * 100000)) rounded to
the nearest lot_step under the round-half-to-even rule of the Python
built-in round (not floored) and then clamped up to min_lot; hence the
result is at least min_lot and, when min_lot is itself an integer
multiple of lot_step, an integer multiple of lot_step. -/
theorem C2_position_size_rounded_clamped (pip_size min_lot lot_step risk_amount : ℚ)
    (stop_loss_pips : ℕ)
    (hpip : 0 < pip_size) (hstep : 0 < lot_step) (hpips : 0 < stop_loss_pips)
    (hmin : ∃ k : ℤ, min_lot = k * lot_step) :
    calculate_position_size pip_size min_lot lot_step risk_amount stop_loss_pips =
      max ((pyRound (risk_amount / stop_loss_pips / (pip_size * 100000) / lot_step) : ℚ)
        * lot_step) min_lot ∧
    min_lot ≤ calculate_position_size pip_size min_lot lot_step risk_amount stop_loss_pips ∧
    ∃ n : ℤ, calculate_position_size pip_size min_lot lot_step risk_amount stop_loss_pips =
      n * lot_step := by
  have hguard : ¬ (stop_loss_pips = 0 ∨ pip_size = 0 ∨ lot_step = 0) := by
    push_neg
    exact ⟨Nat.pos_iff_ne_zero.mp hpips, ne_of_gt hpip, ne_of_gt hstep⟩
  have heq : calculate_position_size pip_size min_lot lot_step risk_amount stop_loss_pips =
      max ((pyRound (risk_amount / stop_loss_pips / (pip_size * 100000) / lot_step) : ℚ)
        * lot_step) min_lot := by
    unfold calculate_position_size
    rw [if_neg hguard]
  refine ⟨heq, heq ▸ le_max_right _ _, ?_⟩
  obtain ⟨k, hk⟩ := hmin
  refine ⟨max (pyRound (risk_amount / stop_loss_pips / (pip_size * 100000) / lot_step)) k, ?_⟩
  rw [heq, hk, Int.cast_max]
  exact (max_mul_of_nonneg _ _ hstep.le).symm

/-- Witness for C2 at the scenario of the spec, section 8: risk_amount
200, 20 pips, pip_size 0.0001, lot constraints 0.01/0.01. -/
theorem C2_witness :
    (0 < (1/10000 : ℚ) ∧ 0 < (1/100 : ℚ) ∧ 0 < 20 ∧
      ∃ k : ℤ, (1/100 : ℚ) = k * (1/100 : ℚ)) ∧
    (calculate_position_size (1/10000) (1/100) (1/100) 200 20 =
      max ((pyRound ((200 : ℚ) / (20 : ℕ) / ((1/10000) * 100000) / (1/100)) : ℚ)
        * (1/100)) (1/100) ∧
     (1/100 : ℚ) ≤ calculate_position_size (1/10000) (1/100) (1/100) 200 20 ∧
     ∃ n : ℤ, calculate_position_size (1/10000) (1/100) (1/100) 200 20 = n * (1/100)) :=
  ⟨⟨by decide, by decide, by decide, ⟨1, by decide⟩⟩,
   C2_position_size_rounded_clamped (1/10000) (1/100) (1/100) 200 20
     (by decide) (by decide) (by decide) ⟨1, by decide⟩⟩

/-- C4 (amended): with stopLossDistancePips = 0 the division inside the
try block raises, the except handler swallows the error and the function
returns the hard-coded default 0.01 whatever risk_amount and the lot
constraints are; the result is that constant, not a size computed from
risk_amount as pip risk, and it is below min_lot whenever
min_lot > 0.01. -/
theorem C4_zero_pips_returns_default (pip_size min_lot lot_step risk_amount : ℚ) :
    calculate_position_size pip_size min_lot lot_step risk_amount 0 = 1/100 := by
  unfold calculate_position_size
  rw [if_pos (Or.inl rfl)]

/-- C4 counterexample: with min_lot = 0.1 and risk_amount 100 the zero-pip
call returns 0.01, which is below min_lot (and not a risk_amount-derived
size). -/
theorem C4_counterexample :
    calculate_position_size (1/10000) (1/10) (1/100) 100 0 = 1/100 ∧
    calculate_position_size (1/10000) (1/10) (1/100) 100 0 < 1/10 := by
  decide

/-- C5: for every standard-deviation implementation and every candle
history shorter than 20 candles, the indicator computation returns the
empty IndicatorSet — no partial or garbage indicators. -/
theorem C5_short_history_empty_indicators (std : List ℚ → ℚ) (hist : List Candle)
    (h : hist.length < 20) : calculate_technical_indicators std hist = [] := by
  unfold calculate_technical_indicators
  rw [if_pos h]

/-- Witness for C5 at a two-candle history. -/
theorem C5_witness :
    ([⟨1, 2, 0⟩, ⟨2, 3, 1⟩] : List Candle).length < 20 ∧
    calculate_technical_indicators (fun _ => 0) [⟨1, 2, 0⟩, ⟨2, 3, 1⟩] = [] :=
  ⟨by decide, C5_short_history_empty_indicators (fun _ => 0) _ (by decide)⟩

/-- C6: for every price list and period, the RSI lies in
[0, 100]; with fewer than period+1 closes it is the neutral 50; and
otherwise, when the average loss over the last period deltas is 0, it
is 100. -/
theorem C6_rsi_bounds (prices : List ℚ) (period : ℕ) :
    (0 ≤ calculate_rsi prices period ∧ calculate_rsi prices period ≤ 100) ∧
    (prices.length < period + 1 → calculate_rsi prices period = 50) ∧
    (¬ prices.length < period + 1 → avg_loss prices period = 0 →
      calculate_rsi prices period = 100) := by
  unfold calculate_rsi
  split_ifs with h1 h2
  · exact ⟨⟨by norm_num, by norm_num⟩, fun _ => rfl, fun hn _ => absurd h1 hn⟩
  · exact ⟨⟨by norm_num, by norm_num⟩, fun hl => absurd hl h1, fun _ _ => rfl⟩
  · have hl : 0 < avg_loss prices period :=
      lt_of_le_of_ne (avg_loss_nonneg prices period) (Ne.symm h2)
    have hg : 0 ≤ avg_gain prices period := avg_gain_nonneg prices period
    have hrs : 0 ≤ avg_gain prices period / avg_loss prices period :=
      div_nonneg hg hl.le
    have hle : 100 / (1 + avg_gain prices period / avg_loss prices period) ≤ 100 :=
      div_le_self (by norm_num) (by linarith)
    have hgt : 0 < 100 / (1 + avg_gain prices period / avg_loss prices period) :=
      div_pos (by norm_num) (by linarith)
    exact ⟨⟨by linarith, by linarith⟩, fun hl2 => absurd hl2 h1,
      fun _ h0 => absurd h0 h2⟩

/-- Witness for C6 at a two-price history and the source period 14. -/
theorem C6_witness :
    ([(1 : ℚ), 2].length < 14 + 1) ∧ calculate_rsi [1, 2] 14 = 50 :=
  ⟨by decide, (C6_rsi_bounds [1, 2] 14).2.1 (by decide)⟩

/-- C7 (amended): volatility classification returns Normal exactly for a
timeframe map with no RSI values; with at least one RSI value it
classifies the average RSI as High above 70 or below 30, Medium above 60
or below 40, and Low (not Normal, as the claim text says) in between. -/
theorem C7_volatility_bands (tfs : List (List (String × ℚ))) :
    (tfs.filterMap (List.lookup "RSI") = [] → calculate_volatility tfs = "Normal") ∧
    (tfs.filterMap (List.lookup "RSI") ≠ [] →
      calculate_volatility tfs =
        volatility_class (npMean (tfs.filterMap (List.lookup "RSI")))) := by
  unfold calculate_volatility volatility_class
  constructor
  · intro h
    rw [if_pos h]
  · intro h
    rw [if_neg h]

/-- Witness for C7: no RSI values classify as Normal, and a single
in-band RSI of 50 goes through the band classifier. -/
theorem C7_witness :
    (([] : List (List (String × ℚ))).filterMap (List.lookup "RSI") = [] ∧
     calculate_volatility [] = "Normal") ∧
    (([[("RSI", (50 : ℚ))]] : List (List (String × ℚ))).filterMap
        (List.lookup "RSI") ≠ [] ∧
     calculate_volatility [[("RSI", (50 : ℚ))]] =
       volatility_class (npMean (([[("RSI", (50 : ℚ))]] :
         List (List (String × ℚ))).filterMap (List.lookup "RSI")))) :=
  ⟨⟨by decide, (C7_volatility_bands []).1 (by decide)⟩,
   ⟨by decide, (C7_volatility_bands [[("RSI", (50 : ℚ))]]).2 (by decide)⟩⟩

/-- C7 counterexample: a timeframe map whose only RSI value is 50 (average
in [40, 60]) classifies as Low, not as the Normal the claim states. -/
theorem C7_counterexample :
    calculate_volatility [[("RSI", (50 : ℚ))]] = "Low" ∧
    calculate_volatility [[("RSI", (50 : ℚ))]] ≠ "Normal" := by
  decide

/-- C9 (amended): for every raw oracle output, validation produces a
signal whose side is in {BUY, SELL, HOLD} — a present side other than
BUY and SELL is coerced to HOLD — and whose confidence is clamped to
[0, 1].  An output missing a required field (signal, confidence or any
of the three prices, which are not defaulted to current_price) degrades
to the safe default signal (HOLD, confidence 0.0) rather than throwing;
a malformed value likewise degrades exactly where the code converts or
computes with it: a confidence float() rejects, a price float() rejects
when current_price > 0, and a non-numeric price used to derive a
missing risk_reward_ratio for a BUY or SELL side when
current_price ≤ 0.  A present risk_reward_ratio is not validated: it
goes through as-is, together with the raw prices when
current_price ≤ 0. -/
theorem C9_oracle_validation_safe (a : RawAnalysis) (cp : ℚ) :
    ((validate_analysis_result a cp).signal = "BUY" ∨
     (validate_analysis_result a cp).signal = "SELL" ∨
     (validate_analysis_result a cp).signal = "HOLD") ∧
    (0 ≤ (validate_analysis_result a cp).confidence ∧
     (validate_analysis_result a cp).confidence ≤ 1) ∧
    ((a.signal = none ∨ a.confidence = none ∨ a.entry_price = none ∨
      a.stop_loss = none ∨ a.take_profit = none) →
      validate_analysis_result a cp = get_default_analysis) ∧
    (∀ s, a.signal = some s → s ≠ "BUY" → s ≠ "SELL" →
      (validate_analysis_result a cp).signal = "HOLD") ∧
    (∀ v, a.confidence = some v → pyFloat v = none →
      validate_analysis_result a cp = get_default_analysis) ∧
    (0 < cp → ∀ v,
      (a.entry_price = some v ∨ a.stop_loss = some v ∨ a.take_profit = some v) →
      pyFloat v = none →
      validate_analysis_result a cp = get_default_analysis) ∧
    (¬ 0 < cp → a.risk_reward_ratio = none → ∀ s, a.signal = some s →
      (s = "BUY" ∨ s = "SELL") → ∀ v,
      (a.entry_price = some v ∨ a.stop_loss = some v ∨ a.take_profit = some v) →
      pyArith v = none →
      validate_analysis_result a cp = get_default_analysis) ∧
    (∀ sig0 conf0 c ep0 sl0 tp0 rr,
      a = ⟨some sig0, some conf0, some ep0, some sl0, some tp0, some rr⟩ →
      pyFloat conf0 = some c → ¬ 0 < cp →
      validate_analysis_result a cp =
        ⟨if sig0 = "BUY" ∨ sig0 = "SELL" ∨ sig0 = "HOLD" then sig0 else "HOLD",
         max 0 (min 1 c), ep0, sl0, tp0, rr⟩) ∧
    get_default_analysis.signal = "HOLD" ∧ get_default_analysis.confidence = 0 := by
  refine ⟨validate_signal_mem a cp, validate_confidence_bounds a cp,
    validate_missing_default a cp,
    fun s hs hb hl => validate_invalid_signal_hold a cp s hs hb hl,
    fun v hv hf => validate_malformed_confidence a cp v hv hf,
    fun hcp v hv hf => validate_malformed_price_default a cp hcp v hv hf,
    fun hcp hrr s hs hsig v hv ha =>
      validate_derive_failure_default a cp hcp hrr s hs hsig v hv ha,
    ?_, rfl, rfl⟩
  intro sig0 conf0 c ep0 sl0 tp0 rr ha hc hcp
  subst ha
  exact validate_rr_passthrough sig0 conf0 c ep0 sl0 tp0 rr cp hc hcp

/-- Witness for C9 at concrete inputs: a missing entry_price degrades to
the default, a lowercase side "buy" is coerced to HOLD, a malformed
confidence degrades, a malformed price with current_price 5 degrades, a
non-numeric price in the SELL risk-reward derivation at current_price 0
degrades, and a present (malformed) risk_reward_ratio goes through with
the raw prices at current_price 0. -/
theorem C9_witness :
    validate_analysis_result
      ⟨some "BUY", some (PVal.num (9/10)), none, some (PVal.num 1),
       some (PVal.num 2), none⟩ 5 = get_default_analysis ∧
    (validate_analysis_result
      ⟨some "buy", some (PVal.num 2), some PVal.nonnum, some (PVal.num 1),
       some (PVal.num 1), some (PVal.num 3)⟩ 0).signal = "HOLD" ∧
    validate_analysis_result
      ⟨some "BUY", some PVal.nonnum, some (PVal.num 1), some (PVal.num 1),
       some (PVal.num 2), some (PVal.num 2)⟩ 1 = get_default_analysis ∧
    validate_analysis_result
      ⟨some "BUY", some (PVal.num 1), some PVal.nonnum, some (PVal.num 1),
       some (PVal.num 2), some (PVal.num 2)⟩ 5 = get_default_analysis ∧
    validate_analysis_result
      ⟨some "SELL", some (PVal.num 1), some (PVal.numstr 3), some (PVal.num 1),
       some (PVal.num 2), none⟩ 0 = get_default_analysis ∧
    validate_analysis_result
      ⟨some "BUY", some (PVal.numstr 2), some PVal.nonnum, some (PVal.num 1),
       some (PVal.num 2), some PVal.nonnum⟩ 0 =
      ⟨"BUY", 1, PVal.nonnum, PVal.num 1, PVal.num 2, PVal.nonnum⟩ := by
  refine ⟨?_, ?_, ?_, ?_, ?_, ?_⟩
  · exact (C9_oracle_validation_safe
      ⟨some "BUY", some (PVal.num (9/10)), none, some (PVal.num 1),
       some (PVal.num 2), none⟩ 5).2.2.1 (Or.inr (Or.inr (Or.inl rfl)))
  · exact (C9_oracle_validation_safe
      ⟨some "buy", some (PVal.num 2), some PVal.nonnum, some (PVal.num 1),
       some (PVal.num 1), some (PVal.num 3)⟩ 0).2.2.2.1 "buy" rfl
      (by decide) (by decide)
  · exact (C9_oracle_validation_safe
      ⟨some "BUY", some PVal.nonnum, some (PVal.num 1), some (PVal.num 1),
       some (PVal.num 2), some (PVal.num 2)⟩ 1).2.2.2.2.1
      PVal.nonnum rfl rfl
  · exact (C9_oracle_validation_safe
      ⟨some "BUY", some (PVal.num 1), some PVal.nonnum, some (PVal.num 1),
       some (PVal.num 2), some (PVal.num 2)⟩ 5).2.2.2.2.2.1
      (by decide) PVal.nonnum (Or.inl rfl) rfl
  · exact (C9_oracle_validation_safe
      ⟨some "SELL", some (PVal.num 1), some (PVal.numstr 3), some (PVal.num 1),
       some (PVal.num 2), none⟩ 0).2.2.2.2.2.2.1
      (by decide) rfl "SELL" rfl (Or.inr rfl) (PVal.numstr 3) (Or.inl rfl) rfl
  · exact (C9_oracle_validation_safe
      ⟨some "BUY", some (PVal.numstr 2), some PVal.nonnum, some (PVal.num 1),
       some (PVal.num 2), some PVal.nonnum⟩ 0).2.2.2.2.2.2.2.1
      "BUY" (PVal.numstr 2) 2 PVal.nonnum (PVal.num 1) (PVal.num 2) PVal.nonnum
      rfl rfl (by decide)

/-- C9 counterexample: an output whose entry_price is missing but whose
other required fields are well-formed degrades to the full default
analysis — the missing price is not defaulted to the current price 5
and the BUY side is not kept, contrary to the claim's missing-price
clause. -/
theorem C9_counterexample :
    validate_analysis_result
      ⟨some "BUY", some (PVal.num (9/10)), none, some (PVal.num 1),
       some (PVal.num 2), none⟩ 5 = get_default_analysis ∧
    (validate_analysis_result
      ⟨some "BUY", some (PVal.num (9/10)), none, some (PVal.num 1),
       some (PVal.num 2), none⟩ 5).entry_price ≠ PVal.num 5 ∧
    (validate_analysis_result
      ⟨some "BUY", some (PVal.num (9/10)), none, some (PVal.num 1),
       some (PVal.num 2), none⟩ 5).signal ≠ "BUY" :=
  ⟨rfl, by decide, by decide⟩

end TradingBot
